import Mathlib

/-!
# Shallow embedding of `websocket_communication.py` (Teacher1 repository)

This file embeds the protocol core of the repository — the
`WebSocketCommunicator` class of `src/websocket_communication.py` — as
executable Lean definitions, and proves the specification claims about it.

Modelling conventions:
* A Python `dict` is an association list preserving insertion order
  (Python 3.7+ dict semantics); the deduplication `set` is a duplicate-free
  list in insertion order (the CPython set iterates in an arbitrary order;
  the eviction batch `list(cache)[:100]` is modelled as the first 100
  elements in insertion order, the choice the spec itself describes).
* Fresh UUIDs and timestamps produced by `uuid.uuid4()` /
  `datetime.now()` are passed to each operation as explicit string
  parameters (the nondeterminism made into an input).
* WebSocket connections are opaque handles (`Nat`).  Network sends are
  recorded as events; send failures (`ConnectionClosed`) are network
  nondeterminism outside the state machine and are not modelled — every
  recorded send succeeds.  Logging calls are not modelled.
* The registered `on_question_received` / `on_answer_received` /
  `on_ack_received` callbacks are optional Lean functions stored on the
  state; a callback that raises is modelled with `Except String`.
-/

/-- One protocol unit, the JSON object described at the top of
`websocket_communication.py`:  `message_id`, `sender`, `type`, `content`,
`in_reply_to`, `timestamp`.  A missing/None `message_id` in a decoded frame
is modelled as the empty string (both are falsy in the source's
`if not message_id` check); a missing `in_reply_to` is `none`. -/
structure Message where
  message_id : String
  sender : String
  type : String
  content : String
  in_reply_to : Option String
  timestamp : String
deriving DecidableEq, Repr

/-- Observable actions performed by the dispatch/send code: a frame sent on a
connection, a registered callback invoked on a message, or a callback
raising an exception that the dispatch boundary catches and logs. -/
inductive Event where
  | sent (conn : Nat) (msg : Message)
  | handlerInvoked (slot : String) (msg : Message)
  | handlerError (slot : String) (err : String)
deriving DecidableEq, Repr

/-- The mutable attributes of a `WebSocketCommunicator` instance
(`__init__`, lines 41–79): identity/configuration, connection registries,
the message cache, the pending-question dict, the conversation state string
and the three optional callback slots.  `max_cache_size` is assigned the
constant 1000 in `__init__` and never reassigned anywhere in the
repository, so it is a global constant below rather than a field. -/
structure CommState where
  name : String
  server_port : Nat
  target_host : String
  target_port : Option Nat
  connected_clients : List Nat
  client_websocket : Option Nat
  message_cache : List String
  pending_questions : List (String × Message)
  conversation_state : String
  on_question_received : Option (Message → Except String (Option String))
  on_answer_received : Option (Message → Except String Unit)
  on_ack_received : Option (Message → Except String Unit)

/-- `self.max_cache_size = 1000` (line 79). -/
def max_cache_size : Nat := 1000

/-- `WebSocketCommunicator.__init__`: empty registries, empty cache, empty
pending dict, conversation state `"idle"`, no callbacks registered. -/
def init_state (name : String) (server_port : Nat) (target_host : String)
    (target_port : Option Nat) : CommState :=
  { name := name
    server_port := server_port
    target_host := target_host
    target_port := target_port
    connected_clients := []
    client_websocket := none
    message_cache := []
    pending_questions := []
    conversation_state := "idle"
    on_question_received := none
    on_answer_received := none
    on_ack_received := none }

/-- `create_message` (lines 81–102): builds the structured message dict.
The fresh `uuid.uuid4()` and the current timestamp are the explicit
`freshId` / `timestamp` parameters. -/
def create_message (name : String) (freshId : String) (timestamp : String)
    (content : String) (msg_type : String) (in_reply_to : Option String) :
    Message :=
  { message_id := freshId
    sender := name
    type := msg_type
    content := content
    in_reply_to := in_reply_to
    timestamp := timestamp }

/-- `_is_duplicate_message` (lines 104–117): returns `true` and leaves the
cache untouched if the id is already cached; otherwise adds the id and, if
the cache size now exceeds `max_cache_size`, discards the first 100
entries (`list(self.message_cache)[:100]`). -/
def is_duplicate_message (st : CommState) (message_id : String) :
    Bool × CommState :=
  if message_id ∈ st.message_cache then
    (true, st)
  else
    let cache := st.message_cache ++ [message_id]
    let cache := if max_cache_size < cache.length then cache.drop 100 else cache
    (false, { st with message_cache := cache })

/-- `_send_to_websocket` (lines 207–215): send one JSON frame on one
connection (exception paths are logging-only and not modelled). -/
def send_to_websocket (conn : Nat) (msg : Message) : List Event :=
  [Event.sent conn msg]

/-- `broadcast_message` (lines 217–234): sends the message to each entry of
`self.connected_clients` (and to nothing else); when the registry is empty
only a warning is logged.  The cleanup of clients whose send raised is not
modelled (sends succeed). -/
def broadcast_message (st : CommState) (msg : Message) : List Event :=
  if st.connected_clients = [] then
    []
  else
    st.connected_clients.map fun c => Event.sent c msg

/-- Python `dict` assignment `d[k] = v` on an insertion-ordered dict:
overwrite in place if the key exists, else append. -/
def dict_insert (d : List (String × Message)) (k : String) (v : Message) :
    List (String × Message) :=
  if d.any (fun p => p.1 == k) then
    d.map fun p => if p.1 == k then (k, v) else p
  else
    d ++ [(k, v)]

/-- `_handle_question` (lines 145–169): send an ack referencing the
question over the same connection; then, if `on_question_received` is set,
invoke it inside try/except — a truthy (non-empty) returned string is sent
back as an answer over the same connection, an exception is caught and
logged.  The communicator state is not mutated. -/
def handle_question (st : CommState) (conn : Nat) (msg : Message)
    (ackId ackTs ansId ansTs : String) : CommState × List Event :=
  let ack := create_message st.name ackId ackTs
    ("Question received: " ++ msg.message_id) "ack" (some msg.message_id)
  let ev1 := send_to_websocket conn ack
  match st.on_question_received with
  | none => (st, ev1)
  | some h =>
    match h msg with
    | Except.error e =>
      (st, ev1 ++ [Event.handlerInvoked "question" msg,
                   Event.handlerError "question" e])
    | Except.ok response =>
      let ev2 := ev1 ++ [Event.handlerInvoked "question" msg]
      match response with
      | none => (st, ev2)
      | some r =>
        if r = "" then (st, ev2)
        else
          let ans := create_message st.name ansId ansTs r "answer"
            (some msg.message_id)
          (st, ev2 ++ send_to_websocket conn ans)

/-- The conversation-state update of `_handle_answer` (lines 176–179): if
`in_reply_to` is truthy (`some` and non-empty) and is a key of
`pending_questions`, delete that entry and return to `"idle"`; otherwise
leave the state alone. -/
def answer_state_update (st : CommState) (msg : Message) : CommState :=
  match msg.in_reply_to with
  | none => st
  | some r =>
    if r = "" then st
    else if st.pending_questions.any (fun p => p.1 == r) then
      { st with
        pending_questions := st.pending_questions.filter fun p => p.1 ≠ r
        conversation_state := "idle" }
    else st

/-- `_handle_answer` (lines 171–194): apply the conversation-state update,
then send an ack referencing the answer over the same connection, then
invoke `on_answer_received` inside try/except. -/
def handle_answer (st : CommState) (conn : Nat) (msg : Message)
    (ackId ackTs : String) : CommState × List Event :=
  let st := answer_state_update st msg
  let ack := create_message st.name ackId ackTs
    ("Answer received: " ++ msg.message_id) "ack" (some msg.message_id)
  let ev1 := send_to_websocket conn ack
  match st.on_answer_received with
  | none => (st, ev1)
  | some h =>
    match h msg with
    | Except.error e =>
      (st, ev1 ++ [Event.handlerInvoked "answer" msg,
                   Event.handlerError "answer" e])
    | Except.ok _ => (st, ev1 ++ [Event.handlerInvoked "answer" msg])

/-- `_handle_ack` (lines 196–205): invoke `on_ack_received` inside
try/except; nothing else — no state change, no response frame. -/
def handle_ack (st : CommState) (msg : Message) : CommState × List Event :=
  match st.on_ack_received with
  | none => (st, [])
  | some h =>
    match h msg with
    | Except.error e =>
      (st, [Event.handlerInvoked "ack" msg, Event.handlerError "ack" e])
    | Except.ok _ => (st, [Event.handlerInvoked "ack" msg])

/-- Python's `str.lower()` as used on the `type` field (ASCII protocol
strings), mapped over the characters.  (`String.toLower` itself does not
reduce in the kernel; this equivalent form does.) -/
def str_lower (s : String) : String :=
  ⟨s.data.map Char.toLower⟩

/-- `_handle_message` (lines 119–143), the shared dispatch routine: drop a
frame with a falsy `message_id`; drop a duplicate (the duplicate check
itself records a new id in the cache); route by lower-cased `type` to the
question/answer/ack handler; drop an unknown type. -/
def handle_message (st : CommState) (conn : Nat) (msg : Message)
    (ackId ackTs ansId ansTs : String) : CommState × List Event :=
  if msg.message_id = "" then (st, [])
  else
    let dup := is_duplicate_message st msg.message_id
    if dup.1 then (dup.2, [])
    else
      let st1 := dup.2
      let t := str_lower msg.type
      if t = "question" then handle_question st1 conn msg ackId ackTs ansId ansTs
      else if t = "answer" then handle_answer st1 conn msg ackId ackTs
      else if t = "ack" then handle_ack st1 msg
      else (st1, [])

/-- `send_question` (lines 236–262): rejected with `None` while
`conversation_state == "waiting_for_answer"`; otherwise create a question
message, record it in `pending_questions`, move to `"waiting_for_answer"`,
and send it — to the explicit target connection when one is given, else by
`broadcast_message` (which reaches only `connected_clients`).  Returns the
new message id. -/
def send_question (st : CommState) (freshId ts content : String)
    (target_websocket : Option Nat) :
    Option String × CommState × List Event :=
  if st.conversation_state = "waiting_for_answer" then
    (none, st, [])
  else
    let q := create_message st.name freshId ts content "question" none
    let st1 := { st with
      pending_questions := dict_insert st.pending_questions q.message_id q
      conversation_state := "waiting_for_answer" }
    let ev :=
      match target_websocket with
      | some w => send_to_websocket w q
      | none => broadcast_message st1 q
    (some q.message_id, st1, ev)

/-- `is_ready_to_send_question` (lines 355–357). -/
def is_ready_to_send_question (st : CommState) : Bool :=
  st.conversation_state == "idle"

/-- States a `WebSocketCommunicator` instance can actually be in: the
`__init__` state, followed by any interleaving of the operations that
mutate instance attributes — sending a question, dispatching a received
frame, client connect/disconnect (`connect_as_client`,
`_client_message_handler` teardown), server-side accept/disconnect
(`_server_handler`), and registering the three callback slots. -/
inductive Reachable : CommState → Prop where
  | init (name : String) (sp : Nat) (th : String) (tp : Option Nat) :
      Reachable (init_state name sp th tp)
  | send (st : CommState) (freshId ts content : String) (tw : Option Nat) :
      Reachable st → Reachable (send_question st freshId ts content tw).2.1
  | recv (st : CommState) (conn : Nat) (msg : Message)
      (ackId ackTs ansId ansTs : String) :
      Reachable st → Reachable (handle_message st conn msg ackId ackTs ansId ansTs).1
  | clientConnect (st : CommState) (w : Nat) :
      Reachable st → Reachable { st with client_websocket := some w }
  | clientDisconnect (st : CommState) :
      Reachable st → Reachable { st with client_websocket := none }
  | serverAccept (st : CommState) (w : Nat) :
      Reachable st → Reachable { st with connected_clients := st.connected_clients ++ [w] }
  | serverDrop (st : CommState) (w : Nat) :
      Reachable st → Reachable { st with connected_clients := st.connected_clients.filter (· ≠ w) }
  | setQuestionHandler (st : CommState) (h : Option (Message → Except String (Option String))) :
      Reachable st → Reachable { st with on_question_received := h }
  | setAnswerHandler (st : CommState) (h : Option (Message → Except String Unit)) :
      Reachable st → Reachable { st with on_answer_received := h }
  | setAckHandler (st : CommState) (h : Option (Message → Except String Unit)) :
      Reachable st → Reachable { st with on_ack_received := h }

/-! ## Derived observations and helper lemmas -/

/-- The cache produced when `_is_duplicate_message` records a new id:
append, then batch-evict the first 100 entries if the bound is exceeded. -/
def cache_ins (cache : List String) (id : String) : List String :=
  let c := cache ++ [id]
  if max_cache_size < c.length then c.drop 100 else c

/-- All frames sent in a trace, as (connection, message) pairs. -/
def sent_frames (evs : List Event) : List (Nat × Message) :=
  evs.filterMap fun e =>
    match e with
    | Event.sent c m => some (c, m)
    | _ => none

/-- The sent frames whose `type` field is `"ack"`. -/
def ack_sends (evs : List Event) : List (Nat × Message) :=
  evs.filterMap fun e =>
    match e with
    | Event.sent c m => if m.type == "ack" then some (c, m) else none
    | _ => none

/-- How many times a registered callback was invoked on a message carrying
the given `message_id`. -/
def invocations_for (evs : List Event) (id : String) : Nat :=
  (evs.filter fun e =>
    match e with
    | Event.handlerInvoked _ m => m.message_id == id
    | _ => false).length

theorem is_dup_of_mem (st : CommState) (id : String)
    (h : id ∈ st.message_cache) : is_duplicate_message st id = (true, st) := by
  simp [is_duplicate_message, h]

theorem is_dup_of_not_mem (st : CommState) (id : String)
    (h : id ∉ st.message_cache) :
    is_duplicate_message st id =
      (false, { st with message_cache := cache_ins st.message_cache id }) := by
  simp [is_duplicate_message, h, cache_ins]

theorem mem_cache_ins (cache : List String) (id : String) :
    id ∈ cache_ins cache id := by
  simp only [cache_ins]
  split
  · rename_i h
    have hlen : 100 ≤ cache.length := by
      simp [max_cache_size, List.length_append] at h
      omega
    rw [List.drop_append_eq_append_drop]
    have h0 : 100 - cache.length = 0 := by omega
    simp [h0]
  · simp

theorem cache_ins_length_le (cache : List String) (id : String)
    (h : cache.length ≤ max_cache_size) :
    (cache_ins cache id).length ≤ max_cache_size := by
  simp only [cache_ins]
  split
  · rename_i h1
    simp only [List.length_drop, List.length_append]
    simp [max_cache_size] at *
    omega
  · rename_i h1
    simp [max_cache_size, List.length_append] at *
    omega

theorem handle_question_fst (st : CommState) (conn : Nat) (msg : Message)
    (a b c d : String) : (handle_question st conn msg a b c d).1 = st := by
  unfold handle_question
  repeat' split
  all_goals rfl

theorem handle_ack_fst (st : CommState) (msg : Message) :
    (handle_ack st msg).1 = st := by
  unfold handle_ack
  repeat' split
  all_goals rfl

theorem handle_answer_fst (st : CommState) (conn : Nat) (msg : Message)
    (a b : String) :
    (handle_answer st conn msg a b).1 = answer_state_update st msg := by
  simp only [handle_answer]
  repeat' split
  all_goals rfl

theorem answer_update_fields (st : CommState) (msg : Message) :
    (answer_state_update st msg).message_cache = st.message_cache ∧
    (answer_state_update st msg).name = st.name ∧
    (answer_state_update st msg).connected_clients = st.connected_clients ∧
    (answer_state_update st msg).client_websocket = st.client_websocket ∧
    (answer_state_update st msg).on_question_received = st.on_question_received ∧
    (answer_state_update st msg).on_answer_received = st.on_answer_received ∧
    (answer_state_update st msg).on_ack_received = st.on_ack_received := by
  unfold answer_state_update
  repeat' split
  all_goals simp

theorem hm_empty (st : CommState) (conn : Nat) (msg : Message)
    (a b c d : String) (h : msg.message_id = "") :
    handle_message st conn msg a b c d = (st, []) := by
  simp [handle_message, h]

theorem hm_dup (st : CommState) (conn : Nat) (msg : Message)
    (a b c d : String) (h0 : msg.message_id ≠ "")
    (h : msg.message_id ∈ st.message_cache) :
    handle_message st conn msg a b c d = (st, []) := by
  simp [handle_message, h0, is_dup_of_mem st _ h]

theorem hm_question (st : CommState) (conn : Nat) (msg : Message)
    (a b c d : String) (h0 : msg.message_id ≠ "")
    (h : msg.message_id ∉ st.message_cache)
    (ht : str_lower msg.type = "question") :
    handle_message st conn msg a b c d =
      handle_question { st with message_cache := cache_ins st.message_cache msg.message_id }
        conn msg a b c d := by
  simp [handle_message, h0, is_dup_of_not_mem st _ h, ht]

theorem hm_answer (st : CommState) (conn : Nat) (msg : Message)
    (a b c d : String) (h0 : msg.message_id ≠ "")
    (h : msg.message_id ∉ st.message_cache)
    (ht : str_lower msg.type = "answer") :
    handle_message st conn msg a b c d =
      handle_answer { st with message_cache := cache_ins st.message_cache msg.message_id }
        conn msg a b := by
  simp [handle_message, h0, is_dup_of_not_mem st _ h, ht]

theorem hm_ack (st : CommState) (conn : Nat) (msg : Message)
    (a b c d : String) (h0 : msg.message_id ≠ "")
    (h : msg.message_id ∉ st.message_cache)
    (ht : str_lower msg.type = "ack") :
    handle_message st conn msg a b c d =
      handle_ack { st with message_cache := cache_ins st.message_cache msg.message_id }
        msg := by
  simp [handle_message, h0, is_dup_of_not_mem st _ h, ht]

theorem hm_unknown (st : CommState) (conn : Nat) (msg : Message)
    (a b c d : String) (h0 : msg.message_id ≠ "")
    (h : msg.message_id ∉ st.message_cache)
    (htq : str_lower msg.type ≠ "question")
    (hta : str_lower msg.type ≠ "answer")
    (htk : str_lower msg.type ≠ "ack") :
    handle_message st conn msg a b c d =
      ({ st with message_cache := cache_ins st.message_cache msg.message_id }, []) := by
  simp [handle_message, h0, is_dup_of_not_mem st _ h, htq, hta, htk]

/-- The conversation-state machine fields of the dispatch result: the state
after `_handle_message` carries the `answer_state_update` of the (cache
updated) input state on the answer path, and the unchanged fields
elsewhere. -/
theorem hm_fst_cache_mem (st : CommState) (conn : Nat) (msg : Message)
    (a b c d : String) (h0 : msg.message_id ≠ "") :
    msg.message_id ∈ (handle_message st conn msg a b c d).1.message_cache := by
  by_cases hmem : msg.message_id ∈ st.message_cache
  · rw [hm_dup st conn msg a b c d h0 hmem]
    exact hmem
  · have hins : msg.message_id ∈ cache_ins st.message_cache msg.message_id :=
      mem_cache_ins _ _
    by_cases htq : str_lower msg.type = "question"
    · rw [hm_question st conn msg a b c d h0 hmem htq, handle_question_fst]
      exact hins
    · by_cases hta : str_lower msg.type = "answer"
      · rw [hm_answer st conn msg a b c d h0 hmem hta, handle_answer_fst]
        rw [(answer_update_fields _ msg).1]
        exact hins
      · by_cases htk : str_lower msg.type = "ack"
        · rw [hm_ack st conn msg a b c d h0 hmem htk, handle_ack_fst]
          exact hins
        · rw [hm_unknown st conn msg a b c d h0 hmem htq hta htk]
          exact hins

/-- The structural invariant of the conversation state machine: the state
string is `"idle"` with no pending question, or `"waiting_for_answer"`
with exactly one. -/
def StateInv (st : CommState) : Prop :=
  (st.conversation_state = "idle" ∧ st.pending_questions = []) ∨
  (st.conversation_state = "waiting_for_answer" ∧ st.pending_questions.length = 1)

theorem answer_update_StateInv (st : CommState) (msg : Message)
    (h : StateInv st) : StateInv (answer_state_update st msg) := by
  unfold answer_state_update
  cases hrep : msg.in_reply_to with
  | none => exact h
  | some r =>
    by_cases hre : r = ""
    · simp only [if_pos hre]
      exact h
    · simp only [if_neg hre]
      by_cases hany : st.pending_questions.any (fun p => p.1 == r) = true
      · simp only [hany, if_pos]
        left
        refine ⟨rfl, ?_⟩
        rcases h with ⟨_, hp⟩ | ⟨_, hp⟩
        · simp [hp]
        · obtain ⟨p, hpl⟩ := List.length_eq_one.mp hp
          rw [hpl] at hany ⊢
          simp only [List.any_cons, List.any_nil, Bool.or_false] at hany
          have : p.1 = r := by exact_mod_cast beq_iff_eq.mp hany
          simp [List.filter, this]
      · simp only [Bool.not_eq_true] at hany
        simp only [hany, Bool.false_eq_true, if_false]
        exact h

theorem StateInv_cache (st : CommState) (x : List String)
    (h : StateInv st) : StateInv { st with message_cache := x } := h

theorem reachable_StateInv (st : CommState) (h : Reachable st) : StateInv st := by
  induction h with
  | init name sp th tp => exact Or.inl ⟨rfl, rfl⟩
  | send st freshId ts content tw hr ih =>
    unfold send_question
    by_cases hw : st.conversation_state = "waiting_for_answer"
    · simp only [if_pos hw]
      exact ih
    · simp only [if_neg hw]
      rcases ih with ⟨hid, hpend⟩ | ⟨hid, _⟩
      · right
        refine ⟨rfl, ?_⟩
        simp [dict_insert, hpend]
      · exact absurd hid hw
  | recv st conn msg a b c d hr ih =>
    by_cases h0 : msg.message_id = ""
    · rw [hm_empty st conn msg a b c d h0]
      exact ih
    · by_cases hmem : msg.message_id ∈ st.message_cache
      · rw [hm_dup st conn msg a b c d h0 hmem]
        exact ih
      · have ih1 : StateInv { st with message_cache := cache_ins st.message_cache msg.message_id } :=
          StateInv_cache st _ ih
        by_cases htq : str_lower msg.type = "question"
        · rw [hm_question st conn msg a b c d h0 hmem htq, handle_question_fst]
          exact ih1
        · by_cases hta : str_lower msg.type = "answer"
          · rw [hm_answer st conn msg a b c d h0 hmem hta, handle_answer_fst]
            exact answer_update_StateInv _ msg ih1
          · by_cases htk : str_lower msg.type = "ack"
            · rw [hm_ack st conn msg a b c d h0 hmem htk, handle_ack_fst]
              exact ih1
            · rw [hm_unknown st conn msg a b c d h0 hmem htq hta htk]
              exact ih1
  | clientConnect st w hr ih => exact ih
  | clientDisconnect st hr ih => exact ih
  | serverAccept st w hr ih => exact ih
  | serverDrop st w hr ih => exact ih
  | setQuestionHandler st hh hr ih => exact ih
  | setAnswerHandler st hh hr ih => exact ih
  | setAckHandler st hh hr ih => exact ih

theorem mem_dict_insert (d : List (String × Message)) (k : String) (v : Message) :
    (k, v) ∈ dict_insert d k v := by
  unfold dict_insert
  split
  · rename_i hany
    rw [List.any_eq_true] at hany
    obtain ⟨p, hp, hpk⟩ := hany
    have hmap := List.mem_map_of_mem (fun p => if p.1 == k then (k, v) else p) hp
    simp only [hpk, if_true] at hmap
    exact hmap
  · exact List.mem_append_right _ (by simp)

theorem lookup_filter_ne (d : List (String × Message)) (k : String) :
    List.lookup k (d.filter fun p => p.1 ≠ k) = none := by
  simp
  exact fun a b _ hak hka => hak hka.symm

theorem any_key_false_of_lookup_none (d : List (String × Message)) (r : String)
    (h : List.lookup r d = none) : (d.any fun p => p.1 == r) = false := by
  induction d with
  | nil => rfl
  | cons p tl ih =>
    rw [List.lookup_cons] at h
    by_cases hp : p.1 = r
    · rw [show (r == p.1) = true by simp [hp]] at h
      exact absurd h (by simp)
    · rw [show (r == p.1) = false by simp [beq_eq_false_iff_ne]; exact fun he => hp he.symm] at h
      simp only [List.any_cons]
      rw [show (p.1 == r) = false by simp [beq_eq_false_iff_ne, hp]]
      simp [ih (by simpa using h)]

/-! ## Fixtures for concrete witnesses -/

/-- A freshly constructed communicator (`__init__` with the demo arguments
of `create_communicator_pair`). -/
def base_state : CommState :=
  init_state "fractal_ai" 8765 "localhost" (some 8766)

/-! ## Claims -/

/-- Claim C4: `Seen(id)` returns `true` and leaves the cache unchanged when
`id` was already recorded; otherwise it records `id`, returns `false`, and
when the cache then exceeds `max_cache_size` (= 1000) it evicts a batch of
100 of the oldest recorded ids; consequently the cache of a fresh
communicator stays at size ≤ 1000 after every insertion. -/
theorem claim_C4_dedup_cache :
    max_cache_size = 1000 ∧
    (∀ (st : CommState) (id : String), id ∈ st.message_cache →
      is_duplicate_message st id = (true, st)) ∧
    (∀ (st : CommState) (id : String), id ∉ st.message_cache →
      (is_duplicate_message st id).1 = false ∧
      id ∈ (is_duplicate_message st id).2.message_cache ∧
      (max_cache_size < st.message_cache.length + 1 →
        (is_duplicate_message st id).2.message_cache =
          (st.message_cache ++ [id]).drop 100 ∧
        (is_duplicate_message st id).2.message_cache.length =
          st.message_cache.length + 1 - 100)) ∧
    (∀ (name : String) (sp : Nat) (th : String) (tp : Option Nat)
      (ids : List String) (n : Nat),
      (((ids.take n).foldl (fun s i => (is_duplicate_message s i).2)
        (init_state name sp th tp)).message_cache.length ≤ 1000)) := by
  refine ⟨rfl, ?_, ?_, ?_⟩
  · exact fun st id h => is_dup_of_mem st id h
  · intro st id h
    rw [is_dup_of_not_mem st id h]
    refine ⟨rfl, mem_cache_ins _ _, ?_⟩
    intro hlen
    have hcond : max_cache_size < (st.message_cache ++ [id]).length := by
      simpa using hlen
    constructor
    · simp only [cache_ins]
      rw [if_pos hcond]
    · simp only [cache_ins]
      rw [if_pos hcond]
      simp [max_cache_size] at hlen ⊢
  · intro name sp th tp ids n
    have : ∀ (l : List String) (s : CommState),
        s.message_cache.length ≤ max_cache_size →
        ((l.foldl (fun s i => (is_duplicate_message s i).2) s).message_cache.length ≤
          max_cache_size) := by
      intro l
      induction l with
      | nil => exact fun s h => h
      | cons i tl ih =>
        intro s h
        refine ih _ ?_
        by_cases hmem : i ∈ s.message_cache
        · simp only [is_dup_of_mem s i hmem]
          exact h
        · simp only [is_dup_of_not_mem s i hmem]
          exact cache_ins_length_le _ _ h
    exact this (ids.take n) _ (by simp [init_state, max_cache_size])

/-- A communicator whose cache already holds 1000 distinct ids, right at
the eviction threshold. -/
def big_state : CommState :=
  { base_state with
    message_cache := (List.range 1000).map fun n => "m" ++ toString n }

set_option maxRecDepth 100000 in
/-- Claim C4, concrete witness: a cache hit leaves a two-entry cache
untouched; a miss on a full 1000-entry cache reports a non-duplicate and
evicts down to 901 entries; a fresh communicator folding in three ids
stays within the bound. -/
theorem claim_C4_dedup_cache_witness :
    is_duplicate_message { base_state with message_cache := ["a", "b"] } "a" =
      (true, { base_state with message_cache := ["a", "b"] }) ∧
    (is_duplicate_message big_state "x").1 = false ∧
    (is_duplicate_message big_state "x").2.message_cache.length = 901 ∧
    ((["u", "v", "u"].take 3).foldl (fun s i => (is_duplicate_message s i).2)
      (init_state "fractal_ai" 8765 "localhost" (some 8766))).message_cache.length ≤ 1000 := by
  have hmem : "x" ∉ big_state.message_cache := by decide
  refine ⟨claim_C4_dedup_cache.2.1 _ "a" (by decide),
          (claim_C4_dedup_cache.2.2.1 big_state "x" hmem).1, ?_,
          claim_C4_dedup_cache.2.2.2 "fractal_ai" 8765 "localhost" (some 8766) ["u", "v", "u"] 3⟩
  have h2 := ((claim_C4_dedup_cache.2.2.1 big_state "x" hmem).2.2 (by decide)).2
  have hlen : big_state.message_cache.length = 1000 := by
    simp [big_state, base_state, init_state]
  rw [h2, hlen]

/-- Claim C9: in every reachable communicator state the conversation state
string is only `"idle"` or `"waiting_for_answer"` (the documented third
state `"processing"` is never entered), `pending_questions` holds at most
one entry, and the state is `"waiting_for_answer"` exactly when
`pending_questions` is non-empty. -/
theorem claim_C9_state_invariant (st : CommState) (h : Reachable st) :
    (st.conversation_state = "idle" ∨ st.conversation_state = "waiting_for_answer") ∧
    st.pending_questions.length ≤ 1 ∧
    (st.conversation_state = "waiting_for_answer" ↔ st.pending_questions ≠ []) := by
  rcases reachable_StateInv st h with ⟨h1, h2⟩ | ⟨h1, h2⟩
  · refine ⟨Or.inl h1, by simp [h2], ?_, ?_⟩
    · intro hw
      rw [h1] at hw
      exact absurd hw (by decide)
    · intro hne
      exact absurd h2 hne
  · refine ⟨Or.inr h1, by omega, fun _ => ?_, fun _ => h1⟩
    intro hnil
    rw [hnil] at h2
    simp at h2

/-- Claim C9, concrete witness: the invariant at the state reached by a
fresh communicator that has sent one question. -/
theorem claim_C9_state_invariant_witness :
    ((send_question base_state "q-9" "t-9" "hi" none).2.1.conversation_state = "idle" ∨
      (send_question base_state "q-9" "t-9" "hi" none).2.1.conversation_state = "waiting_for_answer") ∧
    (send_question base_state "q-9" "t-9" "hi" none).2.1.pending_questions.length ≤ 1 ∧
    ((send_question base_state "q-9" "t-9" "hi" none).2.1.conversation_state = "waiting_for_answer" ↔
      (send_question base_state "q-9" "t-9" "hi" none).2.1.pending_questions ≠ []) :=
  claim_C9_state_invariant _
    (Reachable.send _ "q-9" "t-9" "hi" none
      (Reachable.init "fractal_ai" 8765 "localhost" (some 8766)))

/-- Claim C2: on any reachable state that is not `Idle`, `send_question`
returns `None`, emits no frame and leaves the whole state (conversation
state, `pending_questions`, dedup cache) unchanged; in particular a
`send_question` that succeeded makes an immediately following
`send_question` fail this way. -/
theorem claim_C2_send_rejected_when_busy (st : CommState) (h : Reachable st) :
    (st.conversation_state ≠ "idle" →
      (∀ freshId ts content tw,
        send_question st freshId ts content tw = (none, st, [])) ∧
      is_ready_to_send_question st = false) ∧
    (∀ freshId ts content tw freshId2 ts2 content2 tw2,
      (send_question st freshId ts content tw).1.isSome = true →
      send_question (send_question st freshId ts content tw).2.1
        freshId2 ts2 content2 tw2 =
        (none, (send_question st freshId ts content tw).2.1, [])) := by
  constructor
  · intro hne
    have hw : st.conversation_state = "waiting_for_answer" := by
      rcases reachable_StateInv st h with ⟨h1, _⟩ | ⟨h1, _⟩
      · exact absurd h1 hne
      · exact h1
    refine ⟨?_, ?_⟩
    · intro freshId ts content tw
      unfold send_question
      rw [if_pos hw]
    · simp [is_ready_to_send_question, hw]
  · intro freshId ts content tw freshId2 ts2 content2 tw2 hsome
    by_cases hw : st.conversation_state = "waiting_for_answer"
    · unfold send_question at hsome
      rw [if_pos hw] at hsome
      simp at hsome
    · set A := (send_question st freshId ts content tw).2.1 with hA
      have hres : A.conversation_state = "waiting_for_answer" := by
        rw [hA]
        unfold send_question
        rw [if_neg hw]
      show send_question A freshId2 ts2 content2 tw2 = (none, A, [])
      unfold send_question
      rw [if_pos hres]

/-- Claim C2, concrete witness: a second `send_question` right after a
successful one is rejected without any frame and without a state change
(the second-send scenario of the claim, at the reachable state of a fresh
communicator that has just sent a question). -/
theorem claim_C2_send_rejected_when_busy_witness :
    send_question (send_question base_state "q-2" "t-2" "first" none).2.1
      "q-3" "t-3" "second" none =
      (none, (send_question base_state "q-2" "t-2" "first" none).2.1, []) ∧
    is_ready_to_send_question (send_question base_state "q-2" "t-2" "first" none).2.1 = false :=
  ⟨(claim_C2_send_rejected_when_busy base_state
      (Reachable.init "fractal_ai" 8765 "localhost" (some 8766))).2
      "q-2" "t-2" "first" none "q-3" "t-3" "second" none (by decide),
   ((claim_C2_send_rejected_when_busy _
      (Reachable.send _ "q-2" "t-2" "first" none
        (Reachable.init "fractal_ai" 8765 "localhost" (some 8766)))).1
      (by decide)).2⟩

/-- Claim C10: `send_question` in state `Idle` with no server connections
and no client connection still succeeds — it returns the fresh message id,
records the question in `pending_questions` and moves to
`WaitingForAnswer` — while emitting no frame to anyone; afterwards no
further question can be sent. -/
theorem claim_C10_send_without_peers (st : CommState)
    (h1 : st.conversation_state = "idle")
    (h2 : st.connected_clients = [])
    (h3 : st.client_websocket = none)
    (freshId ts content : String) :
    (send_question st freshId ts content none).1 = some freshId ∧
    (freshId, create_message st.name freshId ts content "question" none) ∈
      (send_question st freshId ts content none).2.1.pending_questions ∧
    (send_question st freshId ts content none).2.1.conversation_state =
      "waiting_for_answer" ∧
    (send_question st freshId ts content none).2.2 = [] ∧
    (∀ freshId2 ts2 content2 tw2,
      send_question (send_question st freshId ts content none).2.1
        freshId2 ts2 content2 tw2 =
        (none, (send_question st freshId ts content none).2.1, [])) := by
  have hcond : st.conversation_state ≠ "waiting_for_answer" := by
    rw [h1]
    decide
  unfold send_question
  rw [if_neg hcond]
  refine ⟨rfl, mem_dict_insert _ _ _, rfl, ?_, ?_⟩
  · show broadcast_message _ _ = []
    simp [broadcast_message, h2]
  · intro freshId2 ts2 content2 tw2
    rw [if_pos rfl]

/-- Claim C10, concrete witness: a fresh communicator (no peers at all)
sends a question successfully, emits nothing, and is then blocked. -/
theorem claim_C10_send_without_peers_witness :
    (send_question base_state "q-10" "t-10" "solo" none).1 = some "q-10" ∧
    (send_question base_state "q-10" "t-10" "solo" none).2.2 = [] ∧
    send_question (send_question base_state "q-10" "t-10" "solo" none).2.1
      "q-11" "t-11" "again" none =
      (none, (send_question base_state "q-10" "t-10" "solo" none).2.1, []) :=
  ⟨(claim_C10_send_without_peers base_state rfl rfl rfl "q-10" "t-10" "solo").1,
   (claim_C10_send_without_peers base_state rfl rfl rfl "q-10" "t-10" "solo").2.2.2.1,
   (claim_C10_send_without_peers base_state rfl rfl rfl "q-10" "t-10" "solo").2.2.2.2
     "q-11" "t-11" "again" none⟩

/-- A communicator in state `Idle` with no inbound server connections but
with a live outbound client connection (handle 5). -/
def client_only_state : CommState :=
  { base_state with client_websocket := some 5 }

/-- Claim C1, counterexample: with the outbound client connection present
(and no inbound server connections), `send_question` in state `Idle`
succeeds — yet it emits no frame at all, in particular nothing over the
outbound client connection, contradicting the claim that the question is
also sent over the outbound client connection when present. -/
theorem claim_C1_counterexample :
    client_only_state.conversation_state = "idle" ∧
    client_only_state.client_websocket = some 5 ∧
    (send_question client_only_state "q-1" "t-1" "hello" none).1 = some "q-1" ∧
    (send_question client_only_state "q-1" "t-1" "hello" none).2.2 = [] := by
  refine ⟨rfl, rfl, rfl, rfl⟩

/-- Claim C1 (amended): `send_question` in state `Idle` (with no explicit
target) creates a fresh `Question` message, records it in
`pending_questions`, transitions to `WaitingForAnswer`, and sends it to
every live server connection — and only to those: the outbound client
connection never receives it. -/
theorem claim_C1_send_question_broadcasts (st : CommState)
    (h : st.conversation_state = "idle") (freshId ts content : String) :
    (send_question st freshId ts content none).1 = some freshId ∧
    (freshId, create_message st.name freshId ts content "question" none) ∈
      (send_question st freshId ts content none).2.1.pending_questions ∧
    (send_question st freshId ts content none).2.1.conversation_state =
      "waiting_for_answer" ∧
    (send_question st freshId ts content none).2.2 =
      st.connected_clients.map
        (fun c => Event.sent c (create_message st.name freshId ts content "question" none)) := by
  have hcond : st.conversation_state ≠ "waiting_for_answer" := by
    rw [h]
    decide
  unfold send_question
  rw [if_neg hcond]
  refine ⟨rfl, mem_dict_insert _ _ _, rfl, ?_⟩
  show broadcast_message _ _ = _
  unfold broadcast_message
  split
  · rename_i hnil
    rw [show ∀ x : CommState, ({ x with
        pending_questions := dict_insert x.pending_questions freshId
          (create_message x.name freshId ts content "question" none),
        conversation_state := "waiting_for_answer" } : CommState).connected_clients =
        x.connected_clients from fun x => rfl] at hnil
    rw [hnil]
    rfl
  · rfl

/-- A communicator in state `Idle` serving two inbound peers (handles 3
and 7) and holding an outbound client connection (handle 5). -/
def two_peer_state : CommState :=
  { base_state with connected_clients := [3, 7], client_websocket := some 5 }

/-- Claim C1 (amended), concrete witness: the question goes to the two
inbound server connections, in particular not to the client connection. -/
theorem claim_C1_send_question_broadcasts_witness :
    (send_question two_peer_state "q-7" "t-7" "hi" none).1 = some "q-7" ∧
    ("q-7", create_message two_peer_state.name "q-7" "t-7" "hi" "question" none) ∈
      (send_question two_peer_state "q-7" "t-7" "hi" none).2.1.pending_questions ∧
    (send_question two_peer_state "q-7" "t-7" "hi" none).2.1.conversation_state =
      "waiting_for_answer" ∧
    (send_question two_peer_state "q-7" "t-7" "hi" none).2.2 =
      two_peer_state.connected_clients.map
        (fun c => Event.sent c (create_message two_peer_state.name "q-7" "t-7" "hi" "question" none)) :=
  claim_C1_send_question_broadcasts two_peer_state rfl "q-7" "t-7" "hi"

theorem answer_update_match (st : CommState) (msg : Message) (q1 : String)
    (hrep : msg.in_reply_to = some q1) (hq1 : q1 ≠ "")
    (hpend : (st.pending_questions.any fun p => p.1 == q1) = true) :
    answer_state_update st msg =
      { st with
        pending_questions := st.pending_questions.filter fun p => p.1 ≠ q1
        conversation_state := "idle" } := by
  simp only [answer_state_update, hrep]
  rw [if_neg hq1, if_pos hpend]

theorem answer_update_nomatch (st : CommState) (msg : Message)
    (hnom : ∀ r, msg.in_reply_to = some r →
      List.lookup r st.pending_questions = none) :
    answer_state_update st msg = st := by
  cases hrep : msg.in_reply_to with
  | none => simp only [answer_state_update, hrep]
  | some r =>
    simp only [answer_state_update, hrep]
    by_cases hre : r = ""
    · rw [if_pos hre]
    · rw [if_neg hre]
      have hany := any_key_false_of_lookup_none _ r (hnom r hrep)
      simp [hany]

theorem handle_answer_events (st : CommState) (conn : Nat) (msg : Message)
    (ackId ackTs : String) (hcb : Message → Except String Unit)
    (hh : st.on_answer_received = some hcb) :
    Event.handlerInvoked "answer" msg ∈ (handle_answer st conn msg ackId ackTs).2 := by
  have hh2 : (answer_state_update st msg).on_answer_received = some hcb := by
    rw [(answer_update_fields st msg).2.2.2.2.2.1]
    exact hh
  simp only [handle_answer]
  rw [hh2]
  cases hcase : hcb msg with
  | error e => simp [hcase, send_to_websocket]
  | ok u => simp [hcase, send_to_websocket]

/-- Claim C5: with a pending question of id `Q1`, dispatching a
non-duplicate `Answer` whose `in_reply_to` equals `Q1` removes that entry
from `pending_questions` and returns the state to `Idle`, so
`is_ready_to_send_question` is `true` afterwards.  (`Q1` is a recorded
message id, hence non-empty — ids come from `uuid.uuid4()`.) -/
theorem claim_C5_matching_answer_resets (st : CommState) (conn : Nat)
    (msg : Message) (q1 : String) (ackId ackTs ansId ansTs : String)
    (hpend : (st.pending_questions.any fun p => p.1 == q1) = true)
    (hq1 : q1 ≠ "")
    (ht : msg.type = "answer")
    (hrep : msg.in_reply_to = some q1)
    (hid : msg.message_id ≠ "")
    (hdup : msg.message_id ∉ st.message_cache) :
    (handle_message st conn msg ackId ackTs ansId ansTs).1.conversation_state = "idle" ∧
    List.lookup q1 (handle_message st conn msg ackId ackTs ansId ansTs).1.pending_questions = none ∧
    is_ready_to_send_question (handle_message st conn msg ackId ackTs ansId ansTs).1 = true := by
  have htl : str_lower msg.type = "answer" := by
    rw [ht]
    rfl
  rw [hm_answer st conn msg ackId ackTs ansId ansTs hid hdup htl, handle_answer_fst,
    answer_update_match
      { st with message_cache := cache_ins st.message_cache msg.message_id }
      msg q1 hrep hq1 hpend]
  exact ⟨rfl, lookup_filter_ne _ _, rfl⟩

/-- A communicator waiting on the pending question `q-5`. -/
def waiting_state : CommState :=
  { base_state with
    pending_questions :=
      [("q-5", create_message "fractal_ai" "q-5" "t-5" "ping" "question" none)]
    conversation_state := "waiting_for_answer" }

/-- The matching answer frame for `q-5`. -/
def matching_answer : Message :=
  { message_id := "a-5"
    sender := "rasa_bot"
    type := "answer"
    content := "pong"
    in_reply_to := some "q-5"
    timestamp := "t-6" }

/-- Claim C5, concrete witness: the matching answer empties the pending
map and reopens the turn. -/
theorem claim_C5_matching_answer_resets_witness :
    (handle_message waiting_state 0 matching_answer "k1" "k2" "k3" "k4").1.conversation_state = "idle" ∧
    List.lookup "q-5" (handle_message waiting_state 0 matching_answer "k1" "k2" "k3" "k4").1.pending_questions = none ∧
    is_ready_to_send_question (handle_message waiting_state 0 matching_answer "k1" "k2" "k3" "k4").1 = true :=
  claim_C5_matching_answer_resets waiting_state 0 matching_answer "q-5"
    "k1" "k2" "k3" "k4" (by decide) (by decide) rfl rfl (by decide) (by decide)

/-- Claim C6: dispatching a non-duplicate `Answer` whose `in_reply_to`
matches no pending question still invokes the registered
`on_answer_received` callback but leaves the conversation state and
`pending_questions` unchanged, so `is_ready_to_send_question` is
unaffected. -/
theorem claim_C6_nonmatching_answer (st : CommState) (conn : Nat)
    (msg : Message) (hcb : Message → Except String Unit)
    (ackId ackTs ansId ansTs : String)
    (hh : st.on_answer_received = some hcb)
    (ht : msg.type = "answer")
    (hid : msg.message_id ≠ "")
    (hdup : msg.message_id ∉ st.message_cache)
    (hnom : ∀ r, msg.in_reply_to = some r →
      List.lookup r st.pending_questions = none) :
    Event.handlerInvoked "answer" msg ∈ (handle_message st conn msg ackId ackTs ansId ansTs).2 ∧
    (handle_message st conn msg ackId ackTs ansId ansTs).1.conversation_state = st.conversation_state ∧
    (handle_message st conn msg ackId ackTs ansId ansTs).1.pending_questions = st.pending_questions ∧
    is_ready_to_send_question (handle_message st conn msg ackId ackTs ansId ansTs).1 =
      is_ready_to_send_question st := by
  have htl : str_lower msg.type = "answer" := by
    rw [ht]
    rfl
  rw [hm_answer st conn msg ackId ackTs ansId ansTs hid hdup htl]
  have hupd : answer_state_update
      { st with message_cache := cache_ins st.message_cache msg.message_id } msg =
      { st with message_cache := cache_ins st.message_cache msg.message_id } :=
    answer_update_nomatch _ msg hnom
  refine ⟨handle_answer_events _ conn msg ackId ackTs hcb hh, ?_, ?_, ?_⟩
  · rw [handle_answer_fst, hupd]
  · rw [handle_answer_fst, hupd]
  · rw [handle_answer_fst, hupd]
    rfl

/-- A communicator with an answer callback registered and nothing
pending. -/
def listening_state : CommState :=
  { base_state with on_answer_received := some fun _ => Except.ok () }

/-- An answer frame replying to an id that is not pending. -/
def stray_answer : Message :=
  { message_id := "a-6"
    sender := "rasa_bot"
    type := "answer"
    content := "out of band"
    in_reply_to := some "zz"
    timestamp := "t-6" }

/-- Claim C6, concrete witness: an out-of-band answer is delivered to the
callback and changes nothing observable. -/
theorem claim_C6_nonmatching_answer_witness :
    Event.handlerInvoked "answer" stray_answer ∈
      (handle_message listening_state 0 stray_answer "k1" "k2" "k3" "k4").2 ∧
    (handle_message listening_state 0 stray_answer "k1" "k2" "k3" "k4").1.conversation_state =
      listening_state.conversation_state ∧
    (handle_message listening_state 0 stray_answer "k1" "k2" "k3" "k4").1.pending_questions =
      listening_state.pending_questions ∧
    is_ready_to_send_question (handle_message listening_state 0 stray_answer "k1" "k2" "k3" "k4").1 =
      is_ready_to_send_question listening_state :=
  claim_C6_nonmatching_answer listening_state 0 stray_answer _ "k1" "k2" "k3" "k4"
    rfl rfl (by decide) (by decide) (fun r hr => rfl)

theorem ack_sends_handle_question (st : CommState) (conn : Nat) (msg : Message)
    (a b c d : String) :
    ack_sends (handle_question st conn msg a b c d).2 =
      [(conn, create_message st.name a b
        ("Question received: " ++ msg.message_id) "ack" (some msg.message_id))] := by
  simp only [handle_question]
  cases hq : st.on_question_received with
  | none => rfl
  | some h =>
    cases hc : h msg with
    | error e => simp [hc, ack_sends, send_to_websocket, create_message]
    | ok response =>
      cases response with
      | none => simp [hc, ack_sends, send_to_websocket, create_message]
      | some r =>
        by_cases hr : r = ""
        · simp [hc, hr, ack_sends, send_to_websocket, create_message]
        · simp [hc, hr, ack_sends, send_to_websocket, create_message]

theorem ack_sends_handle_answer (st : CommState) (conn : Nat) (msg : Message)
    (a b : String) :
    ack_sends (handle_answer st conn msg a b).2 =
      [(conn, create_message (answer_state_update st msg).name a b
        ("Answer received: " ++ msg.message_id) "ack" (some msg.message_id))] := by
  simp only [handle_answer]
  cases hq : (answer_state_update st msg).on_answer_received with
  | none => rfl
  | some h =>
    cases hc : h msg with
    | error e => simp [hc, ack_sends, send_to_websocket, create_message]
    | ok u => simp [hc, ack_sends, send_to_websocket, create_message]

theorem sent_frames_handle_ack (st : CommState) (msg : Message) :
    sent_frames (handle_ack st msg).2 = [] := by
  simp only [handle_ack]
  cases hq : st.on_ack_received with
  | none => rfl
  | some h =>
    cases hc : h msg with
    | error e => simp [hc, sent_frames]
    | ok u => simp [hc, sent_frames]

/-- Claim C7: every delivered (non-duplicate) `Question` or `Answer`
produces exactly one `Ack`, sent back over the connection it arrived on
and referencing the original `message_id`; dispatching an `Ack` causes no
state transition and no response frame. -/
theorem claim_C7_ack_symmetry :
    (∀ (st : CommState) (conn : Nat) (msg : Message) (ackId ackTs ansId ansTs : String),
      msg.message_id ≠ "" → msg.message_id ∉ st.message_cache →
      (msg.type = "question" ∨ msg.type = "answer") →
      (ack_sends (handle_message st conn msg ackId ackTs ansId ansTs).2).map Prod.fst = [conn] ∧
      (ack_sends (handle_message st conn msg ackId ackTs ansId ansTs).2).map
        (fun p => p.2.in_reply_to) = [some msg.message_id]) ∧
    (∀ (st : CommState) (conn : Nat) (msg : Message) (ackId ackTs ansId ansTs : String),
      msg.message_id ≠ "" → msg.message_id ∉ st.message_cache →
      msg.type = "ack" →
      sent_frames (handle_message st conn msg ackId ackTs ansId ansTs).2 = [] ∧
      (handle_message st conn msg ackId ackTs ansId ansTs).1.conversation_state =
        st.conversation_state ∧
      (handle_message st conn msg ackId ackTs ansId ansTs).1.pending_questions =
        st.pending_questions) := by
  constructor
  · intro st conn msg ackId ackTs ansId ansTs hid hdup ht
    rcases ht with htq | hta
    · have htl : str_lower msg.type = "question" := by
        rw [htq]
        rfl
      rw [hm_question st conn msg ackId ackTs ansId ansTs hid hdup htl,
        ack_sends_handle_question]
      exact ⟨rfl, rfl⟩
    · have htl : str_lower msg.type = "answer" := by
        rw [hta]
        rfl
      rw [hm_answer st conn msg ackId ackTs ansId ansTs hid hdup htl,
        ack_sends_handle_answer]
      exact ⟨rfl, rfl⟩
  · intro st conn msg ackId ackTs ansId ansTs hid hdup ht
    have htl : str_lower msg.type = "ack" := by
      rw [ht]
      rfl
    rw [hm_ack st conn msg ackId ackTs ansId ansTs hid hdup htl]
    exact ⟨sent_frames_handle_ack _ msg, by rw [handle_ack_fst], by rw [handle_ack_fst]⟩

/-- An inbound question frame from the peer. -/
def q_frame : Message :=
  { message_id := "m-7"
    sender := "rasa_bot"
    type := "question"
    content := "what is 2+2"
    in_reply_to := none
    timestamp := "t-7" }

/-- An inbound ack frame from the peer. -/
def ack_frame : Message :=
  { message_id := "m-8"
    sender := "rasa_bot"
    type := "ack"
    content := "Question received: m-7"
    in_reply_to := some "m-7"
    timestamp := "t-8" }

/-- Claim C7, concrete witness: a delivered question is acked exactly once
on its own connection with the right `in_reply_to`; a delivered ack sends
nothing and moves nothing. -/
theorem claim_C7_ack_symmetry_witness :
    (ack_sends (handle_message base_state 2 q_frame "k1" "k2" "k3" "k4").2).map Prod.fst = [2] ∧
    (ack_sends (handle_message base_state 2 q_frame "k1" "k2" "k3" "k4").2).map
      (fun p => p.2.in_reply_to) = [some "m-7"] ∧
    sent_frames (handle_message base_state 3 ack_frame "k1" "k2" "k3" "k4").2 = [] ∧
    (handle_message base_state 3 ack_frame "k1" "k2" "k3" "k4").1.conversation_state =
      base_state.conversation_state :=
  ⟨(claim_C7_ack_symmetry.1 base_state 2 q_frame "k1" "k2" "k3" "k4"
      (by decide) (by decide) (Or.inl rfl)).1,
   (claim_C7_ack_symmetry.1 base_state 2 q_frame "k1" "k2" "k3" "k4"
      (by decide) (by decide) (Or.inl rfl)).2,
   (claim_C7_ack_symmetry.2 base_state 3 ack_frame "k1" "k2" "k3" "k4"
      (by decide) (by decide) rfl).1,
   (claim_C7_ack_symmetry.2 base_state 3 ack_frame "k1" "k2" "k3" "k4"
      (by decide) (by decide) rfl).2.1⟩

theorem invocations_handle_question_le (st : CommState) (conn : Nat)
    (msg : Message) (a b c d : String) (id : String) :
    invocations_for (handle_question st conn msg a b c d).2 id ≤ 1 := by
  simp only [handle_question]
  cases hq : st.on_question_received with
  | none => simp [invocations_for, send_to_websocket]
  | some h =>
    cases hc : h msg with
    | error e =>
      simp [hc, invocations_for, send_to_websocket, List.filter]
      split <;> simp
    | ok response =>
      cases response with
      | none =>
        simp [hc, invocations_for, send_to_websocket, List.filter]
        split <;> simp
      | some r =>
        by_cases hr : r = ""
        · simp [hc, hr, invocations_for, send_to_websocket, List.filter]
          split <;> simp
        · simp [hc, hr, invocations_for, send_to_websocket, List.filter]
          split <;> simp

theorem invocations_handle_answer_le (st : CommState) (conn : Nat)
    (msg : Message) (a b : String) (id : String) :
    invocations_for (handle_answer st conn msg a b).2 id ≤ 1 := by
  simp only [handle_answer]
  cases hq : (answer_state_update st msg).on_answer_received with
  | none => simp [invocations_for, send_to_websocket]
  | some h =>
    cases hc : h msg with
    | error e =>
      simp [hc, invocations_for, send_to_websocket, List.filter]
      split <;> simp
    | ok u =>
      simp [hc, invocations_for, send_to_websocket, List.filter]
      split <;> simp

theorem invocations_handle_ack_le (st : CommState) (msg : Message)
    (id : String) :
    invocations_for (handle_ack st msg).2 id ≤ 1 := by
  simp only [handle_ack]
  cases hq : st.on_ack_received with
  | none => simp [invocations_for]
  | some h =>
    cases hc : h msg with
    | error e =>
      simp [hc, invocations_for, List.filter]
      split <;> simp
    | ok u =>
      simp [hc, invocations_for, List.filter]
      split <;> simp

theorem invocations_hm_le_one (st : CommState) (conn : Nat) (msg : Message)
    (a b c d : String) (id : String) :
    invocations_for (handle_message st conn msg a b c d).2 id ≤ 1 := by
  by_cases h0 : msg.message_id = ""
  · rw [hm_empty st conn msg a b c d h0]
    simp [invocations_for]
  · by_cases hmem : msg.message_id ∈ st.message_cache
    · rw [hm_dup st conn msg a b c d h0 hmem]
      simp [invocations_for]
    · by_cases htq : str_lower msg.type = "question"
      · rw [hm_question st conn msg a b c d h0 hmem htq]
        exact invocations_handle_question_le _ conn msg a b c d id
      · by_cases hta : str_lower msg.type = "answer"
        · rw [hm_answer st conn msg a b c d h0 hmem hta]
          exact invocations_handle_answer_le _ conn msg a b id
        · by_cases htk : str_lower msg.type = "ack"
          · rw [hm_ack st conn msg a b c d h0 hmem htk]
            exact invocations_handle_ack_le _ msg id
          · rw [hm_unknown st conn msg a b c d h0 hmem htq hta htk]
            simp [invocations_for]

/-- Claim C3: feeding the same frame into the dispatch path twice results
in the registered handler being invoked at most once for its
`message_id`; the second delivery is discarded silently — no events at
all, and no state change beyond the first delivery. -/
theorem claim_C3_idempotent_delivery (st : CommState) (conn conn2 : Nat)
    (msg : Message) (a b c d a2 b2 c2 d2 : String) :
    handle_message (handle_message st conn msg a b c d).1 conn2 msg a2 b2 c2 d2 =
      ((handle_message st conn msg a b c d).1, []) ∧
    invocations_for ((handle_message st conn msg a b c d).2 ++
      (handle_message (handle_message st conn msg a b c d).1 conn2 msg a2 b2 c2 d2).2)
      msg.message_id ≤ 1 := by
  have hsecond : handle_message (handle_message st conn msg a b c d).1 conn2 msg a2 b2 c2 d2 =
      ((handle_message st conn msg a b c d).1, []) := by
    by_cases h0 : msg.message_id = ""
    · exact hm_empty _ conn2 msg a2 b2 c2 d2 h0
    · exact hm_dup _ conn2 msg a2 b2 c2 d2 h0 (hm_fst_cache_mem st conn msg a b c d h0)
  refine ⟨hsecond, ?_⟩
  rw [hsecond]
  simpa using invocations_hm_le_one st conn msg a b c d msg.message_id

theorem handle_question_events_error (st : CommState) (conn : Nat)
    (msg : Message) (a b c d : String)
    (h : Message → Except String (Option String)) (e : String)
    (hh : st.on_question_received = some h) (hc : h msg = Except.error e) :
    (handle_question st conn msg a b c d).2 =
      [Event.sent conn (create_message st.name a b
        ("Question received: " ++ msg.message_id) "ack" (some msg.message_id)),
       Event.handlerInvoked "question" msg,
       Event.handlerError "question" e] := by
  simp [handle_question, hh, hc, send_to_websocket]

theorem handle_answer_error_mem (st : CommState) (conn : Nat) (msg : Message)
    (a b : String) (hcb : Message → Except String Unit) (e : String)
    (hh : st.on_answer_received = some hcb) (hc : hcb msg = Except.error e) :
    Event.handlerError "answer" e ∈ (handle_answer st conn msg a b).2 := by
  have hh2 : (answer_state_update st msg).on_answer_received = some hcb := by
    rw [(answer_update_fields st msg).2.2.2.2.2.1]
    exact hh
  simp only [handle_answer]
  rw [hh2]
  simp [hc, send_to_websocket]

theorem handle_ack_events_error (st : CommState) (msg : Message)
    (h : Message → Except String Unit) (e : String)
    (hh : st.on_ack_received = some h) (hc : h msg = Except.error e) :
    (handle_ack st msg).2 =
      [Event.handlerInvoked "ack" msg, Event.handlerError "ack" e] := by
  simp [handle_ack, hh, hc]

theorem handle_question_invoked (st : CommState) (conn : Nat) (msg : Message)
    (a b c d : String) (h : Message → Except String (Option String))
    (hh : st.on_question_received = some h) :
    Event.handlerInvoked "question" msg ∈ (handle_question st conn msg a b c d).2 := by
  simp only [handle_question, hh]
  cases hc : h msg with
  | error e => simp [hc, send_to_websocket]
  | ok response =>
    cases response with
    | none => simp [hc, send_to_websocket]
    | some r =>
      by_cases hr : r = "" <;> simp [hc, hr, send_to_websocket]

/-- Claim C8: an exception raised by a registered `on_question_received`,
`on_answer_received` or `on_ack_received` callback is caught at the
dispatch boundary, recorded (logged) and not propagated — dispatch
completes with only the ack on the wire and the conversation state
untouched, and a subsequent message is still processed (its handler is
invoked). -/
theorem claim_C8_handler_failures_contained :
    (∀ (st : CommState) (conn : Nat) (msg : Message) (a b c d : String)
      (h : Message → Except String (Option String)) (e : String),
      st.on_question_received = some h → h msg = Except.error e →
      msg.message_id ≠ "" → msg.message_id ∉ st.message_cache → msg.type = "question" →
      Event.handlerError "question" e ∈ (handle_message st conn msg a b c d).2 ∧
      (∀ c2 m, Event.sent c2 m ∈ (handle_message st conn msg a b c d).2 → m.type = "ack") ∧
      (handle_message st conn msg a b c d).1.conversation_state = st.conversation_state ∧
      (handle_message st conn msg a b c d).1.pending_questions = st.pending_questions) ∧
    (∀ (st : CommState) (conn : Nat) (msg : Message) (a b c d : String)
      (h : Message → Except String Unit) (e : String),
      st.on_answer_received = some h → h msg = Except.error e →
      msg.message_id ≠ "" → msg.message_id ∉ st.message_cache → msg.type = "answer" →
      Event.handlerError "answer" e ∈ (handle_message st conn msg a b c d).2) ∧
    (∀ (st : CommState) (conn : Nat) (msg : Message) (a b c d : String)
      (h : Message → Except String Unit) (e : String),
      st.on_ack_received = some h → h msg = Except.error e →
      msg.message_id ≠ "" → msg.message_id ∉ st.message_cache → msg.type = "ack" →
      (handle_message st conn msg a b c d).2 =
        [Event.handlerInvoked "ack" msg, Event.handlerError "ack" e]) ∧
    (∀ (st : CommState) (conn : Nat) (msg : Message) (a b c d : String)
      (h : Message → Except String (Option String)),
      st.on_question_received = some h →
      msg.message_id ≠ "" → msg.message_id ∉ st.message_cache → msg.type = "question" →
      Event.handlerInvoked "question" msg ∈ (handle_message st conn msg a b c d).2) := by
  refine ⟨?_, ?_, ?_, ?_⟩
  · intro st conn msg a b c d h e hh hc hid hdup ht
    have htl : str_lower msg.type = "question" := by
      rw [ht]
      rfl
    rw [hm_question st conn msg a b c d hid hdup htl]
    have hh1 : ({ st with message_cache := cache_ins st.message_cache msg.message_id } :
        CommState).on_question_received = some h := hh
    rw [handle_question_events_error _ conn msg a b c d h e hh1 hc]
    refine ⟨by simp, ?_, ?_, ?_⟩
    · intro c2 m hmem
      simp only [List.mem_cons, List.not_mem_nil, or_false] at hmem
      rcases hmem with h1 | h2 | h3
      · injection h1 with h1a h1b
        subst h1b
        rfl
      · simp at h2
      · simp at h3
    · rw [handle_question_fst]
    · rw [handle_question_fst]
  · intro st conn msg a b c d h e hh hc hid hdup ht
    have htl : str_lower msg.type = "answer" := by
      rw [ht]
      rfl
    rw [hm_answer st conn msg a b c d hid hdup htl]
    exact handle_answer_error_mem _ conn msg a b h e hh hc
  · intro st conn msg a b c d h e hh hc hid hdup ht
    have htl : str_lower msg.type = "ack" := by
      rw [ht]
      rfl
    rw [hm_ack st conn msg a b c d hid hdup htl]
    exact handle_ack_events_error _ msg h e hh hc
  · intro st conn msg a b c d h hh hid hdup ht
    have htl : str_lower msg.type = "question" := by
      rw [ht]
      rfl
    rw [hm_question st conn msg a b c d hid hdup htl]
    exact handle_question_invoked _ conn msg a b c d h hh

/-- A communicator whose three callbacks all raise. -/
def failing_state : CommState :=
  { base_state with
    on_question_received := some fun _ => Except.error "boom"
    on_answer_received := some fun _ => Except.error "bang"
    on_ack_received := some fun _ => Except.error "kaput" }

/-- An inbound answer frame used for the failing-callback scenario. -/
def ans_frame : Message :=
  { message_id := "a-8"
    sender := "rasa_bot"
    type := "answer"
    content := "late reply"
    in_reply_to := some "q-x"
    timestamp := "t-8" }

/-- A second inbound question frame, dispatched after a callback failure. -/
def q2_frame : Message :=
  { message_id := "m-9"
    sender := "rasa_bot"
    type := "question"
    content := "still there?"
    in_reply_to := none
    timestamp := "t-9" }

/-- Claim C8, concrete witness: each failing callback leaves its error in
the trace without crashing dispatch, the failing question dispatch sends
only the ack and keeps the conversation state, and the next question on
the same connection still reaches the handler. -/
theorem claim_C8_handler_failures_contained_witness :
    Event.handlerError "question" "boom" ∈
      (handle_message failing_state 1 q_frame "k1" "k2" "k3" "k4").2 ∧
    (handle_message failing_state 1 q_frame "k1" "k2" "k3" "k4").1.conversation_state =
      failing_state.conversation_state ∧
    Event.handlerError "answer" "bang" ∈
      (handle_message failing_state 1 ans_frame "k1" "k2" "k3" "k4").2 ∧
    (handle_message failing_state 1 ack_frame "k1" "k2" "k3" "k4").2 =
      [Event.handlerInvoked "ack" ack_frame, Event.handlerError "ack" "kaput"] ∧
    Event.handlerInvoked "question" q2_frame ∈
      (handle_message (handle_message failing_state 1 q_frame "k1" "k2" "k3" "k4").1
        1 q2_frame "n1" "n2" "n3" "n4").2 :=
  ⟨(claim_C8_handler_failures_contained.1 failing_state 1 q_frame "k1" "k2" "k3" "k4"
      _ "boom" rfl rfl (by decide) (by decide) rfl).1,
   (claim_C8_handler_failures_contained.1 failing_state 1 q_frame "k1" "k2" "k3" "k4"
      _ "boom" rfl rfl (by decide) (by decide) rfl).2.2.1,
   claim_C8_handler_failures_contained.2.1 failing_state 1 ans_frame "k1" "k2" "k3" "k4"
      _ "bang" rfl rfl (by decide) (by decide) rfl,
   claim_C8_handler_failures_contained.2.2.1 failing_state 1 ack_frame "k1" "k2" "k3" "k4"
      _ "kaput" rfl rfl (by decide) (by decide) rfl,
   claim_C8_handler_failures_contained.2.2.2
      (handle_message failing_state 1 q_frame "k1" "k2" "k3" "k4").1 1 q2_frame
      "n1" "n2" "n3" "n4" _ rfl (by decide) (by decide) rfl⟩
